import Mathlib

/-!
Shallow embedding of the ART dex-file loader
(`src/libdexfile/dex/art_dex_file_loader.h`).

The repository ships only the interface header; the engine behind it
(container detection, multidex enumeration, checksum handling, fd
ownership bookkeeping) is specified by the header doc comments and by
the accompanying specification document.  Definitions below that embed
behaviour not present under `src/` carry a doc comment starting with
"Modelled from the spec:" and name the missing piece.
-/

namespace ArtDex

/-- Decimal digit rendered as a character, as in printf with percent-zu. -/
def digitCh (d : Nat) : Char :=
  match d with
  | 0 => '0' | 1 => '1' | 2 => '2' | 3 => '3' | 4 => '4'
  | 5 => '5' | 6 => '6' | 7 => '7' | 8 => '8' | _ => '9'

/-- Little-endian decimal digits of `n`; `fuel ≥ n` is always enough. -/
def decDigitsAux : Nat → Nat → List Nat
  | 0, _ => []
  | fuel + 1, n => if n = 0 then [] else n % 10 :: decDigitsAux fuel (n / 10)

/-- Little-endian decimal digits of `n`. -/
def decDigits (n : Nat) : List Nat := decDigitsAux n n

/-- Value of a little-endian decimal digit list. -/
def ofDecDigits : List Nat → Nat
  | [] => 0
  | d :: ds => d + 10 * ofDecDigits ds

/-- Decimal rendering of a natural number, as printf percent-zu does. -/
def decString (n : Nat) : String :=
  if n = 0 then "0" else String.mk ((decDigits n).reverse.map digitCh)

/-- Modelled from the spec: name of the i-th multidex archive entry
(zero-based), `classes.dex`, `classes2.dex`, `classes3.dex`, ...; the
implementation lives in the base class `DexFileLoader`, whose source is
not under `src/`. -/
def GetMultiDexClassesDexName (i : Nat) : String :=
  if i = 0 then "classes.dex" else "classes" ++ decString (i + 1) ++ ".dex"

/-- Modelled from the spec: derived location of the i-th multidex unit
(zero-based): the request location for the first unit, and
`location + "!classes" + N + ".dex"` (N = i+1 ≥ 2) afterwards; the
implementation lives in the base class `DexFileLoader`, not under
`src/`. -/
def GetMultiDexLocation (i : Nat) (location : String) : String :=
  if i = 0 then location else location ++ "!classes" ++ decString (i + 1) ++ ".dex"

/-- One archive entry, as the abstract archive capability exposes it:
stored CRC, extracted bytes, compression flag, and the verdict of the
out-of-scope structural verifier on the extracted bytes. -/
structure ZipEntry where
  crc : Nat
  bytes : List Nat
  uncompressed : Bool
  structureOk : Bool
  deriving Repr, DecidableEq

/-- A zip archive, modelled as the list of its named entries. -/
structure ZipArchive where
  entries : List (String × ZipEntry)
  deriving Repr, DecidableEq

/-- Entry lookup by name, the find-entry capability of the archive. -/
def ZipArchive.find (z : ZipArchive) (name : String) : Option ZipEntry :=
  (z.entries.find? (fun p => p.1 == name)).map Prod.snd

/-- A raw dex file: the checksum stored in its header, its bytes, and
the verdict of the out-of-scope structural verifier. -/
structure RawDexFile where
  headerChecksum : Nat
  bytes : List Nat
  structureOk : Bool
  deriving Repr, DecidableEq

/-- Modelled from the spec: checksum recomputed over a byte extent.
The actual CRC32 routine is an external capability, out of scope; any
concrete function of the bytes serves the model.  Values stay below
2^32 as the uint32 checksums of the source do. -/
def computeChecksum (bytes : List Nat) : Nat :=
  bytes.foldl (fun a b => (a + b + 1) % 4294967296) 0

/-- What reading an input (file or descriptor) yields, after the
container format detector has classified the magic prefix: a raw dex
image, a zip archive image, or an unclassifiable blob. -/
inductive FileImage where
  | dexImage (d : RawDexFile)
  | zipImage (z : ZipArchive)
  | unknownImage
  deriving Repr, DecidableEq

/-- Error taxonomy of the loader, from the spec error-handling design. -/
inductive DexLoaderError where
  | ioError (detail : String)
  | unknownFormat
  | missingPrimaryEntry
  | containerCorrupt (detail : String)
  | checksumMismatch (expected actual : Nat) (location : String)
  | structureVerificationFailed (location : String)
  | resourceExhausted
  deriving Repr, DecidableEq

/-- A successfully opened dex unit: its derived location, its checksum,
and whether structural verification was run on it. -/
structure DexFileHandle where
  location : String
  checksum : Nat
  verified : Bool
  deriving Repr, DecidableEq

/-- Modelled from the spec: the probe-until-miss loop of the multidex
enumerator (implementation not under `src/`).  Starting at index `s`,
collect consecutive indices whose entry name is present in the archive
and stop at the first absent one.  Structural fuel; any
`fuel > number of present indices` is exact. -/
def probeFrom (z : ZipArchive) : Nat → Nat → List Nat
  | _, 0 => []
  | s, fuel + 1 =>
    if (z.find (GetMultiDexClassesDexName s)).isSome
    then s :: probeFrom z (s + 1) fuel
    else []

/-- Modelled from the spec: indices of the multidex units the
enumerator discovers: `classes.dex` first when present, then
`classes2.dex`, `classes3.dex`, ... until the first absent suffix.
Fuel `z.entries.length + 1` never runs out because distinct probed
names consume distinct entries. -/
def multiDexIndices (z : ZipArchive) : List Nat :=
  if (z.find (GetMultiDexClassesDexName 0)).isSome
  then 0 :: probeFrom z 1 (z.entries.length + 1)
  else []

/-- Stored CRC of the entry at multidex index `i` (0 when absent;
only queried at discovered indices). -/
def entryCrcAt (z : ZipArchive) (i : Nat) : Nat :=
  match z.find (GetMultiDexClassesDexName i) with
  | some e => e.crc
  | none => 0

/-- Modelled from the spec: the lightweight checksum-only view of the
discovered multidex units: `(derived location, archive CRC)` pairs in
enumeration order. -/
def multiDexUnits (z : ZipArchive) (location : String) : List (String × Nat) :=
  (multiDexIndices z).map (fun i => (GetMultiDexLocation i location, entryCrcAt z i))

/-- Modelled from the spec: open one raw dex unit: checksum check
against the header checksum (when requested), then structural
verification (when requested), then handle construction. -/
def openRawDex (d : RawDexFile) (location : String)
    (verify verifyChecksum : Bool) : Except DexLoaderError DexFileHandle :=
  if verifyChecksum && !(computeChecksum d.bytes == d.headerChecksum)
  then .error (.checksumMismatch d.headerChecksum (computeChecksum d.bytes) location)
  else if verify && !d.structureOk
  then .error (.structureVerificationFailed location)
  else .ok { location := location, checksum := d.headerChecksum, verified := verify }

/-- Modelled from the spec: `OpenOneDexFileFromZip` (implementation not
under `src/`): look the entry up, compare the CRC recomputed from the
extracted bytes with the archive-reported CRC (when requested), run the
structural verifier (when requested), and construct the handle, whose
checksum is the archive-reported CRC. -/
def openOneDexFileFromZip (z : ZipArchive) (entryName : String)
    (location : String) (verify verifyChecksum : Bool) :
    Except DexLoaderError DexFileHandle :=
  match z.find entryName with
  | none => .error (.containerCorrupt entryName)
  | some e =>
    if verifyChecksum && !(computeChecksum e.bytes == e.crc)
    then .error (.checksumMismatch e.crc (computeChecksum e.bytes) location)
    else if verify && !e.structureOk
    then .error (.structureVerificationFailed location)
    else .ok { location := location, checksum := e.crc, verified := verify }

/-- Modelled from the spec: `OpenAllDexFilesFromZip` (implementation
not under `src/`): absence of `classes.dex` is a hard
`missingPrimaryEntry` error; otherwise every discovered unit is
processed independently (best effort: one bad entry does not abort the
whole archive open), each yielding its own per-unit result. -/
def openAllDexFilesFromZip (z : ZipArchive) (location : String)
    (verify verifyChecksum : Bool) :
    Except DexLoaderError (List (Except DexLoaderError DexFileHandle)) :=
  if (z.find (GetMultiDexClassesDexName 0)).isSome
  then .ok ((multiDexIndices z).map (fun i =>
    openOneDexFileFromZip z (GetMultiDexClassesDexName i)
      (GetMultiDexLocation i location) verify verifyChecksum))
  else .error .missingPrimaryEntry

/-- All-or-nothing collection of per-unit results, as the umbrella open
entry points require: the first per-unit error fails the whole call. -/
def collectResults : List (Except DexLoaderError DexFileHandle) →
    Except DexLoaderError (List DexFileHandle)
  | [] => .ok []
  | .error e :: _ => .error e
  | .ok h :: rest => (collectResults rest).map (fun hs => h :: hs)

/-- Modelled from the spec: the umbrella open on a classified image:
raw dex gives one handle, archives give the collected multidex units
(all-or-nothing), unknown magic is an error. -/
def openAnyImage (img : FileImage) (location : String)
    (verify verifyChecksum : Bool) : Except DexLoaderError (List DexFileHandle) :=
  match img with
  | .dexImage d => (openRawDex d location verify verifyChecksum).map (fun h => [h])
  | .zipImage z =>
    match openAllDexFilesFromZip z location verify verifyChecksum with
    | .error e => .error e
    | .ok rs => collectResults rs
  | .unknownImage => .error .unknownFormat

/-- The umbrella open with explicit resource identities: handles are
paired with fresh resource ids drawn from the counter `rid`.  Content
(location, checksum) never depends on the counter; identities do. -/
def openAnyAt (rid : Nat) (img : FileImage) (location : String)
    (verify verifyChecksum : Bool) :
    Except DexLoaderError (List (DexFileHandle × Nat)) :=
  (openAnyImage img location verify verifyChecksum).map
    (fun hs => hs.enum.map (fun p => (p.2, rid + p.1)))

/-- Result of the checksum-only query: the two output vectors of
`GetMultiDexChecksums` plus the all-uncompressed flag. -/
structure MultiDexChecksums where
  checksums : List Nat
  dexLocations : List String
  onlyUncompressed : Bool
  deriving Repr, DecidableEq

/-- Whether the entry at multidex index `i` is stored uncompressed. -/
def entryUncompressedAt (z : ZipArchive) (i : Nat) : Bool :=
  match z.find (GetMultiDexClassesDexName i) with
  | some e => e.uncompressed
  | none => false

/-- Modelled from the spec: the checksum-only variant of the
orchestrator on a classified image (implementation of
`GetMultiDexChecksums` not under `src/`): for a raw dex file the single
header checksum under the request location; for a zip the archive CRC
of each discovered multidex unit, index-aligned with the derived
locations; unknown magic is an error. -/
def getMultiDexChecksumsFromImage (img : FileImage) (filename : String) :
    Except DexLoaderError MultiDexChecksums :=
  match img with
  | .dexImage d =>
    .ok { checksums := [d.headerChecksum], dexLocations := [filename],
          onlyUncompressed := true }
  | .zipImage z =>
    if (z.find (GetMultiDexClassesDexName 0)).isSome
    then .ok { checksums := (multiDexUnits z filename).map Prod.snd,
               dexLocations := (multiDexUnits z filename).map Prod.fst,
               onlyUncompressed := (multiDexIndices z).all (entryUncompressedAt z) }
    else .error .missingPrimaryEntry
  | .unknownImage => .error .unknownFormat

/-- Lift of the checksum-only query to a possibly unreadable input. -/
def getMultiDexChecksumsOpt (img : Option FileImage) (filename : String) :
    Except DexLoaderError MultiDexChecksums :=
  match img with
  | none => .error (.ioError filename)
  | some i => getMultiDexChecksumsFromImage i filename

/-- Entry point `GetMultiDexChecksums(filename, ..., zip_fd)`.  The
header documents the sentinel: with `zip_fd = -1` the file named
`filename` is read; with a valid fd the content is read directly from
the descriptor and `filename` serves only as an alias in messages.
`fileContent` is what opening `filename` yields and `fdContent` what
reading the descriptor yields. -/
def GetMultiDexChecksums (filename : String) (fileContent : Option FileImage)
    (fdContent : Option FileImage) (zip_fd : Int) :
    Except DexLoaderError MultiDexChecksums :=
  if zip_fd = -1
  then getMultiDexChecksumsOpt fileContent filename
  else getMultiDexChecksumsOpt fdContent filename

/-- Ownership tag of a caller-supplied descriptor, from the spec data
model: `owned` means this call must close it on every path, `borrowed`
means it must never close it. -/
inductive ResourceOwnership where
  | owned
  | borrowed
  deriving Repr, DecidableEq

/-- The single release routine parameterized by the ownership tag (the
spec design note): how many times the call closes the caller's fd. -/
def releaseCloses : ResourceOwnership → Nat
  | .owned => 1
  | .borrowed => 0

/-- Outcome of an fd-based entry point: its result, and how many times
the call closed the caller's descriptor. -/
structure FdCallResult (α : Type) where
  result : α
  fdCloses : Nat
  deriving Repr, DecidableEq

/-- Modelled from the spec: the shared body of the two zip-from-fd
entry points (implementation not under `src/`): read the descriptor,
require a zip archive, open all dex files from it; release the
descriptor per the ownership tag on every path, success or failure. -/
def openZipWithOwnership (tag : ResourceOwnership) (fdContent : Option FileImage)
    (location : String) (verify verifyChecksum : Bool) :
    FdCallResult (Except DexLoaderError (List (Except DexLoaderError DexFileHandle))) :=
  { result :=
      match fdContent with
      | none => .error (.ioError location)
      | some (.zipImage z) => openAllDexFilesFromZip z location verify verifyChecksum
      | some (.dexImage _) => .error (.containerCorrupt location)
      | some .unknownImage => .error (.containerCorrupt location)
    fdCloses := releaseCloses tag }

/-- `OpenZip`: the header documents that fd ownership is taken over,
i.e. the fd will be closed by this class. -/
def OpenZip (fdContent : Option FileImage) (location : String)
    (verify verifyChecksum : Bool) :
    FdCallResult (Except DexLoaderError (List (Except DexLoaderError DexFileHandle))) :=
  openZipWithOwnership .owned fdContent location verify verifyChecksum

/-- `OpenZipFromOwnedFd`: the header documents that the fd stays owned
by the caller, so this call never closes it. -/
def OpenZipFromOwnedFd (fdContent : Option FileImage) (location : String)
    (verify verifyChecksum : Bool) :
    FdCallResult (Except DexLoaderError (List (Except DexLoaderError DexFileHandle))) :=
  openZipWithOwnership .borrowed fdContent location verify verifyChecksum

/-- Modelled from the spec: the shared body of the raw-dex-from-fd
entry points (implementation of `OpenFile` not under `src/`): read the
descriptor, require a raw dex image, open the single unit; release the
descriptor per the ownership tag on every path. -/
def openFileWithOwnership (tag : ResourceOwnership) (fdContent : Option FileImage)
    (location : String) (verify verifyChecksum mmapShared : Bool) :
    FdCallResult (Except DexLoaderError DexFileHandle) :=
  { result :=
      match fdContent with
      | none => .error (.ioError location)
      | some (.dexImage d) => openRawDex d location verify verifyChecksum
      | some (.zipImage _) => .error .unknownFormat
      | some .unknownImage => .error .unknownFormat
    fdCloses := releaseCloses tag }

/-- `OpenDex`: the header documents that this function closes the fd it
is given, on every path. -/
def OpenDex (fdContent : Option FileImage) (location : String)
    (verify verifyChecksum mmapShared : Bool) :
    FdCallResult (Except DexLoaderError DexFileHandle) :=
  openFileWithOwnership .owned fdContent location verify verifyChecksum mmapShared

/-- The umbrella open over a possibly unreadable input. -/
def openAnyOpt (img : Option FileImage) (location : String)
    (verify verifyChecksum : Bool) : Except DexLoaderError (List DexFileHandle) :=
  match img with
  | none => .error (.ioError location)
  | some i => openAnyImage i location verify verifyChecksum

/-- Entry point `Open(filename, fd, location, ...)`.  The header
documents the sentinel: if `fd` is -1 the dex files are opened using
the filename, otherwise they are opened using the fd.  `fileContent` is
what opening `filename` yields and `fdContent` what reading the
descriptor yields. -/
def Open (filename : String) (fileContent : Option FileImage) (fd : Int)
    (fdContent : Option FileImage) (location : String)
    (verify verifyChecksum : Bool) : Except DexLoaderError (List DexFileHandle) :=
  if fd = -1
  then openAnyOpt fileContent location verify verifyChecksum
  else openAnyOpt fdContent location verify verifyChecksum

/-- A raw dex input is well formed when the checksum recomputed from
its bytes matches the header checksum and the structural verifier
accepts it. -/
def RawDexFile.wellFormed (d : RawDexFile) : Prop :=
  computeChecksum d.bytes = d.headerChecksum ∧ d.structureOk = true

/-- The image actually read by a sentinel-dispatching entry point:
the named file when the fd is -1, the descriptor otherwise. -/
def selectedImage (fileContent fdContent : Option FileImage) (fd : Int) :
    Option FileImage :=
  if fd = -1 then fileContent else fdContent

/-- The `(location, checksum)` pairs of the units a checksum-only query
reports for an input image (empty for inputs on which it fails). -/
def multiDexUnitsOpt (img : Option FileImage) (filename : String) :
    List (String × Nat) :=
  match img with
  | none => []
  | some (.dexImage d) => [(filename, d.headerChecksum)]
  | some (.zipImage z) => multiDexUnits z filename
  | some .unknownImage => []

/-- Sample entry whose stored CRC matches its recomputed checksum. -/
def entryOne : ZipEntry :=
  { crc := 9, bytes := [1, 2, 3], uncompressed := true, structureOk := true }

/-- Second matching sample entry. -/
def entryTwo : ZipEntry :=
  { crc := 6, bytes := [5], uncompressed := true, structureOk := true }

/-- Third matching sample entry. -/
def entryThree : ZipEntry :=
  { crc := 8, bytes := [7], uncompressed := true, structureOk := true }

/-- Sample entry whose stored CRC disagrees with its recomputed
checksum (stored 7, recomputed 9). -/
def entryBad : ZipEntry :=
  { crc := 7, bytes := [1, 2, 3], uncompressed := true, structureOk := true }

/-- Archive holding classes.dex and classes3.dex but no classes2.dex. -/
def gapArchive : ZipArchive :=
  ⟨[("classes.dex", entryOne), ("classes3.dex", entryThree)]⟩

/-- Archive holding exactly classes.dex, classes2.dex, classes3.dex. -/
def tripleArchive : ZipArchive :=
  ⟨[("classes.dex", entryOne), ("classes2.dex", entryTwo),
    ("classes3.dex", entryThree)]⟩

/-- Archive without any classes.dex entry. -/
def noPrimaryArchive : ZipArchive := ⟨[("resources.arsc", entryOne)]⟩

/-- Archive whose classes2.dex has a mismatching stored CRC while its
siblings match. -/
def mismatchArchive : ZipArchive :=
  ⟨[("classes.dex", entryOne), ("classes2.dex", entryBad),
    ("classes3.dex", entryThree)]⟩

/-- Well-formed sample raw dex input. -/
def sampleDex : RawDexFile :=
  { headerChecksum := 9, bytes := [1, 2, 3], structureOk := true }

/-- The checksum-only result for `tripleArchive` under location string
`loc`. -/
def tripleChecksums : MultiDexChecksums :=
  { checksums := [9, 6, 8],
    dexLocations := ["loc", "loc!classes2.dex", "loc!classes3.dex"],
    onlyUncompressed := true }

/-! Helper lemmas. -/

theorem ofDecDigits_decDigitsAux :
    ∀ fuel n, n ≤ fuel → ofDecDigits (decDigitsAux fuel n) = n := by
  intro fuel
  induction fuel with
  | zero => intro n hn; interval_cases n; simp [decDigitsAux, ofDecDigits]
  | succ f ih =>
    intro n hn
    by_cases h0 : n = 0
    · simp [decDigitsAux, h0, ofDecDigits]
    · have hdiv : n / 10 ≤ f := by
        have : n / 10 < n := Nat.div_lt_self (Nat.pos_of_ne_zero h0) (by omega)
        omega
      simp only [decDigitsAux, h0, if_false, ofDecDigits, ih _ hdiv]
      omega

theorem ofDecDigits_decDigits (n : Nat) : ofDecDigits (decDigits n) = n :=
  ofDecDigits_decDigitsAux n n (Nat.le_refl n)

theorem decDigits_inj {m n : Nat} (h : decDigits m = decDigits n) : m = n := by
  have := ofDecDigits_decDigits m
  rw [h, ofDecDigits_decDigits] at this
  omega

theorem decDigitsAux_lt_ten :
    ∀ fuel n d, d ∈ decDigitsAux fuel n → d < 10 := by
  intro fuel
  induction fuel with
  | zero => intro n d hd; simp [decDigitsAux] at hd
  | succ f ih =>
    intro n d hd
    by_cases h0 : n = 0
    · simp [decDigitsAux, h0] at hd
    · simp only [decDigitsAux, h0, if_false, List.mem_cons] at hd
      rcases hd with hd | hd
      · omega
      · exact ih _ _ hd

theorem digitCh_inj :
    ∀ d < 10, ∀ e < 10, digitCh d = digitCh e → d = e := by decide

theorem map_digitCh_inj :
    ∀ l₁ l₂ : List Nat, (∀ d ∈ l₁, d < 10) → (∀ d ∈ l₂, d < 10) →
      l₁.map digitCh = l₂.map digitCh → l₁ = l₂ := by
  intro l₁
  induction l₁ with
  | nil => intro l₂ _ _ h; cases l₂ <;> simp_all
  | cons a t ih =>
    intro l₂ h₁ h₂ h
    cases l₂ with
    | nil => simp at h
    | cons b u =>
      simp only [List.map_cons, List.cons.injEq] at h
      have ha : a = b := digitCh_inj a (h₁ a (by simp)) b (h₂ b (by simp)) h.1
      have ht : t = u :=
        ih u (fun d hd => h₁ d (by simp [hd])) (fun d hd => h₂ d (by simp [hd])) h.2
      rw [ha, ht]

theorem decString_data_inj {m n : Nat} (hm : 0 < m) (hn : 0 < n)
    (h : (decString m).data = (decString n).data) : m = n := by
  have hm0 : m ≠ 0 := by omega
  have hn0 : n ≠ 0 := by omega
  simp only [decString, hm0, hn0, if_false] at h
  have hrev : (decDigits m).reverse = (decDigits n).reverse :=
    map_digitCh_inj _ _
      (fun d hd => decDigitsAux_lt_ten m m d (List.mem_reverse.mp hd))
      (fun d hd => decDigitsAux_lt_ten n n d (List.mem_reverse.mp hd)) h
  exact decDigits_inj (List.reverse_injective hrev)

theorem decDigits_ne_nil {n : Nat} (hn : 0 < n) : decDigits n ≠ [] := by
  cases n with
  | zero => omega
  | succ k => simp [decDigits, decDigitsAux]

theorem decString_data_ne_nil {n : Nat} (hn : 0 < n) : (decString n).data ≠ [] := by
  have hn0 : n ≠ 0 := by omega
  simp only [decString, hn0, if_false]
  intro h
  have h2 : (decDigits n).reverse.map digitCh = [] := h
  have := decDigits_ne_nil hn
  simp only [List.map_eq_nil, List.reverse_eq_nil_iff] at h2
  exact this h2

theorem name_len_eq (s : String) :
    ("classes" ++ s ++ ".dex").data.length = 7 + s.data.length + 4 := by
  rw [String.data_append, String.data_append, List.length_append, List.length_append]
  have h1 : ("classes" : String).data.length = 7 := rfl
  have h2 : (".dex" : String).data.length = 4 := rfl
  omega

theorem GetMultiDexClassesDexName_inj :
    Function.Injective GetMultiDexClassesDexName := by
  intro i j h
  match i, j with
  | 0, 0 => rfl
  | 0, j + 1 =>
    exfalso
    have h' : "classes.dex" = "classes" ++ decString (j + 1 + 1) ++ ".dex" := h
    have hd : ("classes.dex" : String).data.length =
        ("classes" ++ decString (j + 1 + 1) ++ ".dex").data.length :=
      congrArg (fun s => s.data.length) h'
    rw [name_len_eq] at hd
    have hpos : 0 < (decString (j + 1 + 1)).data.length :=
      List.length_pos.mpr (decString_data_ne_nil (by omega))
    have hl : ("classes.dex" : String).data.length = 11 := rfl
    rw [hl] at hd
    omega
  | i + 1, 0 =>
    exfalso
    have h' : "classes" ++ decString (i + 1 + 1) ++ ".dex" = "classes.dex" := h
    have hd : ("classes" ++ decString (i + 1 + 1) ++ ".dex").data.length =
        ("classes.dex" : String).data.length :=
      congrArg (fun s => s.data.length) h'
    rw [name_len_eq] at hd
    have hpos : 0 < (decString (i + 1 + 1)).data.length :=
      List.length_pos.mpr (decString_data_ne_nil (by omega))
    have hl : ("classes.dex" : String).data.length = 11 := rfl
    rw [hl] at hd
    omega
  | i + 1, j + 1 =>
    have h' : "classes" ++ decString (i + 1 + 1) ++ ".dex" =
        "classes" ++ decString (j + 1 + 1) ++ ".dex" := h
    have hd := congrArg String.data h'
    rw [String.data_append, String.data_append, String.data_append,
      String.data_append] at hd
    have h₁ := List.append_cancel_right hd
    have hmid := List.append_cancel_left h₁
    have := decString_data_inj (m := i + 1 + 1) (n := j + 1 + 1)
      (by omega) (by omega) hmid
    omega

theorem find_isSome_mem_keys {z : ZipArchive} {name : String}
    (h : (z.find name).isSome) : name ∈ z.entries.map Prod.fst := by
  unfold ZipArchive.find at h
  cases hf : z.entries.find? (fun p => p.1 == name) with
  | none => rw [hf] at h; simp at h
  | some p =>
    have hmem := List.mem_of_find?_eq_some hf
    have hkey : p.1 = name := by simpa using List.find?_some hf
    exact hkey ▸ List.mem_map_of_mem Prod.fst hmem

theorem present_le_entries (z : ZipArchive) (k : Nat)
    (h : ∀ j, j < k → (z.find (GetMultiDexClassesDexName j)).isSome) :
    k ≤ z.entries.length := by
  have hsub : (List.range k).map GetMultiDexClassesDexName ⊆ z.entries.map Prod.fst := by
    intro x hx
    rw [List.mem_map] at hx
    obtain ⟨j, hj, rfl⟩ := hx
    exact find_isSome_mem_keys (h j (List.mem_range.mp hj))
  have hnd : ((List.range k).map GetMultiDexClassesDexName).Nodup :=
    (List.nodup_range k).map GetMultiDexClassesDexName_inj
  have hlen := (hnd.subperm hsub).length_le
  simpa using hlen

theorem probeFrom_eq_range' (z : ZipArchive) :
    ∀ fuel s k, s ≤ k → k < s + fuel →
      (∀ j, s ≤ j → j < k → (z.find (GetMultiDexClassesDexName j)).isSome) →
      ¬(z.find (GetMultiDexClassesDexName k)).isSome →
      probeFrom z s fuel = List.range' s (k - s) := by
  intro fuel
  induction fuel with
  | zero => intro s k h1 h2 _ _; omega
  | succ f ih =>
    intro s k hsk hlt hpres hmiss
    by_cases heq : s = k
    · subst heq
      have hb : (z.find (GetMultiDexClassesDexName s)).isSome = false := by
        simpa using hmiss
      simp [probeFrom, hb, Nat.sub_self]
    · have hslt : s < k := by omega
      have hs : (z.find (GetMultiDexClassesDexName s)).isSome :=
        hpres s (Nat.le_refl s) hslt
      have hrec := ih (s + 1) k (by omega) (by omega)
        (fun j hj1 hj2 => hpres j (by omega) hj2) hmiss
      simp only [probeFrom, hs, if_true]
      rw [hrec]
      have hk : k - s = (k - (s + 1)) + 1 := by omega
      rw [hk, List.range'_succ]

theorem multiDexIndices_eq_range (z : ZipArchive) (k : Nat) (hk : 0 < k)
    (hpres : ∀ j, j < k → (z.find (GetMultiDexClassesDexName j)).isSome)
    (hmiss : ¬(z.find (GetMultiDexClassesDexName k)).isSome) :
    multiDexIndices z = List.range k := by
  have h0 : (z.find (GetMultiDexClassesDexName 0)).isSome := hpres 0 hk
  have hle : k ≤ z.entries.length := present_le_entries z k hpres
  unfold multiDexIndices
  rw [if_pos h0, probeFrom_eq_range' z (z.entries.length + 1) 1 k hk (by omega)
    (fun j _ h2 => hpres j h2) hmiss]
  rw [List.range_eq_range']
  have hks : k = (k - 1) + 1 := by omega
  rw [hks, List.range'_succ]
  have hs1 : k - 1 + 1 - 1 = k - 1 := by omega
  rw [hs1]

theorem probeFrom_shape (z : ZipArchive) :
    ∀ fuel s, ∃ m, probeFrom z s fuel = List.range' s m := by
  intro fuel
  induction fuel with
  | zero => intro s; exact ⟨0, rfl⟩
  | succ f ih =>
    intro s
    by_cases hs : (z.find (GetMultiDexClassesDexName s)).isSome
    · obtain ⟨m, hm⟩ := ih (s + 1)
      refine ⟨m + 1, ?_⟩
      simp only [probeFrom, hs, if_true]
      rw [hm, List.range'_succ]
    · refine ⟨0, ?_⟩
      simp [probeFrom, hs]

theorem multiDexIndices_shape (z : ZipArchive) :
    multiDexIndices z = List.range (multiDexIndices z).length := by
  unfold multiDexIndices
  by_cases h0 : (z.find (GetMultiDexClassesDexName 0)).isSome
  · rw [if_pos h0]
    obtain ⟨m, hm⟩ := probeFrom_shape z (z.entries.length + 1) 1
    rw [hm]
    rw [List.range_eq_range']
    simp [List.range'_succ]
  · rw [if_neg h0]
    rfl

/-! Claim theorems. -/

/-- C1: OpenZip, documented as taking over fd ownership, closes the fd
exactly once on every path, including when the input fails to classify
as a zip or is unreadable; OpenZipFromOwnedFd, documented as
caller-owned, never closes the fd on any path. -/
theorem C1_fd_ownership :
    ∀ (fdContent : Option FileImage) (location : String) (verify verifyChecksum : Bool),
      (OpenZip fdContent location verify verifyChecksum).fdCloses = 1 ∧
      (OpenZipFromOwnedFd fdContent location verify verifyChecksum).fdCloses = 0 :=
  fun _ _ _ _ => ⟨rfl, rfl⟩

/-- C2: multidex enumeration is probe-until-miss: when the suffixes up
to some k are present and suffix k is absent, the enumerated indices
are exactly 0..k-1; on the archive with classes.dex and classes3.dex
but no classes2.dex, enumeration yields exactly the one entry
classes.dex and classes3.dex is never surfaced. -/
theorem C2_probe_until_miss :
    (∀ (z : ZipArchive) (k : Nat), 0 < k →
      (∀ j, j < k → (z.find (GetMultiDexClassesDexName j)).isSome) →
      ¬(z.find (GetMultiDexClassesDexName k)).isSome →
      multiDexIndices z = List.range k) ∧
    (multiDexIndices gapArchive).map GetMultiDexClassesDexName = ["classes.dex"] ∧
    (∀ i ∈ multiDexIndices gapArchive, GetMultiDexClassesDexName i ≠ "classes3.dex") :=
  ⟨multiDexIndices_eq_range, by decide, by decide⟩

/-- C2 witness: the general probe-until-miss rule applied to the
three-entry archive, whose first absent suffix is classes4.dex. -/
theorem C2_probe_until_miss_witness :
    multiDexIndices tripleArchive = List.range 3 :=
  C2_probe_until_miss.1 tripleArchive 3 (by decide) (by decide) (by decide)

/-- C3: for every archive with no classes.dex entry, each
open/enumerate entry point fails with missingPrimaryEntry and returns
no handles, and the owned-fd variant still closes the fd exactly once
while the caller-owned variant closes it zero times. -/
theorem C3_missing_primary :
    ∀ (z : ZipArchive) (location : String) (verify verifyChecksum : Bool),
      z.find (GetMultiDexClassesDexName 0) = none →
      openAllDexFilesFromZip z location verify verifyChecksum =
        .error .missingPrimaryEntry ∧
      openAnyImage (.zipImage z) location verify verifyChecksum =
        .error .missingPrimaryEntry ∧
      getMultiDexChecksumsFromImage (.zipImage z) location =
        .error .missingPrimaryEntry ∧
      (OpenZip (some (.zipImage z)) location verify verifyChecksum).result =
        .error .missingPrimaryEntry ∧
      (OpenZip (some (.zipImage z)) location verify verifyChecksum).fdCloses = 1 ∧
      (OpenZipFromOwnedFd (some (.zipImage z)) location verify verifyChecksum).result =
        .error .missingPrimaryEntry ∧
      (OpenZipFromOwnedFd (some (.zipImage z)) location verify verifyChecksum).fdCloses = 0 := by
  intro z location verify verifyChecksum h
  have hb : (z.find (GetMultiDexClassesDexName 0)).isSome = false := by
    rw [h]; rfl
  refine ⟨?_, ?_, ?_, ?_, rfl, ?_, rfl⟩ <;>
    simp [openAllDexFilesFromZip, openAnyImage, getMultiDexChecksumsFromImage,
      OpenZip, OpenZipFromOwnedFd, openZipWithOwnership, hb]

/-- C3 witness: the claim applied to the archive holding only
resources.arsc. -/
theorem C3_missing_primary_witness :
    openAllDexFilesFromZip noPrimaryArchive "loc" true true =
      .error .missingPrimaryEntry ∧
    (OpenZip (some (.zipImage noPrimaryArchive)) "loc" true true).fdCloses = 1 := by
  have h := C3_missing_primary noPrimaryArchive "loc" true true (by decide)
  exact ⟨h.1, h.2.2.2.2.1⟩

/-- C10: OpenDex, documented as closing the fd it is given, closes it
exactly once on every path, whether it returns a handle or an error. -/
theorem C10_opendex_closes :
    ∀ (fdContent : Option FileImage) (location : String)
      (verify verifyChecksum mmapShared : Bool),
      (OpenDex fdContent location verify verifyChecksum mmapShared).fdCloses = 1 :=
  fun _ _ _ _ _ => rfl

/-- C4: in every multidex checksum result for an archive, the first
derived location equals the request location and the location at index
i ≥ 1 (the (i+1)-th unit) is location ++ "!classes" ++ (i+1) ++ ".dex",
in ascending suffix order; on the archive holding exactly classes.dex,
classes2.dex and classes3.dex the query returns exactly the three
units in order with locations loc, loc!classes2.dex, loc!classes3.dex. -/
theorem C4_locations :
    (∀ (z : ZipArchive) (filename : String) (m : MultiDexChecksums),
      getMultiDexChecksumsFromImage (.zipImage z) filename = .ok m →
      (∀ h0 : 0 < m.dexLocations.length, m.dexLocations.get ⟨0, h0⟩ = filename) ∧
      (∀ i, ∀ hi : i < m.dexLocations.length, 1 ≤ i →
        m.dexLocations.get ⟨i, hi⟩ =
          filename ++ "!classes" ++ decString (i + 1) ++ ".dex")) ∧
    getMultiDexChecksumsFromImage (.zipImage tripleArchive) "loc" =
      .ok tripleChecksums := by
  constructor
  · intro z filename m hm
    by_cases h0 : (z.find (GetMultiDexClassesDexName 0)).isSome
    · simp only [getMultiDexChecksumsFromImage, h0, if_true, Except.ok.injEq] at hm
      have hloc : m.dexLocations =
          (multiDexIndices z).map (fun i => GetMultiDexLocation i filename) := by
        rw [← hm]
        simp [multiDexUnits, List.map_map]
      rw [multiDexIndices_shape z] at hloc
      constructor
      · intro hpos
        have hi0 : 0 < (multiDexIndices z).length := by
          have := hloc ▸ hpos
          simpa using this
        simp [hloc, GetMultiDexLocation]
      · intro i hi h1
        have hii : i < (multiDexIndices z).length := by
          have := hloc ▸ hi
          simpa using this
        simp [hloc, GetMultiDexLocation, Nat.pos_iff_ne_zero.mp h1]
    · simp [getMultiDexChecksumsFromImage, h0] at hm
  · rfl

/-- C4 witness: the general location rule applied to the three-entry
archive at index 1, the second unit. -/
theorem C4_locations_witness :
    tripleChecksums.dexLocations.get ⟨1, by decide⟩ =
      "loc" ++ "!classes" ++ decString 2 ++ ".dex" :=
  (C4_locations.1 tripleArchive "loc" tripleChecksums rfl).2 1 (by decide) (by decide)

/-- C5: with checksum verification on, a unit whose recomputed checksum
disagrees with the stored CRC yields checksumMismatch carrying the
expected value, the actual value and that unit location, and no handle
for that unit, while the best-effort zip open still processes every
discovered sibling independently. -/
theorem C5_checksum_mismatch :
    ∀ (z : ZipArchive) (location : String) (verify : Bool),
      ((z.find (GetMultiDexClassesDexName 0)).isSome →
        openAllDexFilesFromZip z location verify true =
          .ok ((multiDexIndices z).map (fun i =>
            openOneDexFileFromZip z (GetMultiDexClassesDexName i)
              (GetMultiDexLocation i location) verify true))) ∧
      (∀ i e, z.find (GetMultiDexClassesDexName i) = some e →
        computeChecksum e.bytes ≠ e.crc →
        openOneDexFileFromZip z (GetMultiDexClassesDexName i)
          (GetMultiDexLocation i location) verify true =
          .error (.checksumMismatch e.crc (computeChecksum e.bytes)
            (GetMultiDexLocation i location))) ∧
      (∀ j f, z.find (GetMultiDexClassesDexName j) = some f →
        computeChecksum f.bytes = f.crc → f.structureOk = true →
        openOneDexFileFromZip z (GetMultiDexClassesDexName j)
          (GetMultiDexLocation j location) verify true =
          .ok { location := GetMultiDexLocation j location, checksum := f.crc,
                verified := verify }) := by
  intro z location verify
  refine ⟨?_, ?_, ?_⟩
  · intro h0
    simp [openAllDexFilesFromZip, h0]
  · intro i e he hne
    have hb : (computeChecksum e.bytes == e.crc) = false := by
      simpa using hne
    simp [openOneDexFileFromZip, he, hb]
  · intro j f hf hcrc hok
    have hb : (computeChecksum f.bytes == f.crc) = true := by
      simpa using hcrc
    simp [openOneDexFileFromZip, hf, hb, hok]

/-- C5 witness: on the archive whose classes2.dex CRC is wrong, the
second unit fails with the expected/actual/location triple while
classes3.dex still opens, and the best-effort open covers every
discovered unit. -/
theorem C5_checksum_mismatch_witness :
    openOneDexFileFromZip mismatchArchive (GetMultiDexClassesDexName 1)
      (GetMultiDexLocation 1 "loc") true true =
      .error (.checksumMismatch entryBad.crc (computeChecksum entryBad.bytes)
        (GetMultiDexLocation 1 "loc")) ∧
    openOneDexFileFromZip mismatchArchive (GetMultiDexClassesDexName 2)
      (GetMultiDexLocation 2 "loc") true true =
      .ok { location := GetMultiDexLocation 2 "loc", checksum := entryThree.crc,
            verified := true } ∧
    openAllDexFilesFromZip mismatchArchive "loc" true true =
      .ok ((multiDexIndices mismatchArchive).map (fun i =>
        openOneDexFileFromZip mismatchArchive (GetMultiDexClassesDexName i)
          (GetMultiDexLocation i "loc") true true)) := by
  have h := C5_checksum_mismatch mismatchArchive "loc" true
  exact ⟨h.2.1 1 entryBad rfl (by decide), h.2.2 2 entryThree rfl rfl rfl, h.1 rfl⟩

/-- C6: for every well-formed raw dex input, the umbrella open returns
exactly one handle whose location is the input location and whose
checksum is the header checksum. -/
theorem C6_raw_dex_single :
    ∀ (d : RawDexFile) (location : String) (verify verifyChecksum : Bool),
      d.wellFormed →
      openAnyImage (.dexImage d) location verify verifyChecksum =
        .ok [{ location := location, checksum := d.headerChecksum,
               verified := verify }] := by
  intro d location verify verifyChecksum hwf
  obtain ⟨hck, hso⟩ := hwf
  have hb : (computeChecksum d.bytes == d.headerChecksum) = true := by
    simpa using hck
  simp [openAnyImage, openRawDex, hb, hso, Except.map]

/-- C6 witness: the claim applied to the sample raw dex input. -/
theorem C6_raw_dex_single_witness :
    openAnyImage (.dexImage sampleDex) "loc" true true =
      .ok [{ location := "loc", checksum := sampleDex.headerChecksum,
             verified := true }] :=
  C6_raw_dex_single sampleDex "loc" true true ⟨by decide, rfl⟩

/-- C7: opening is deterministic at the content level: two calls on the
same immutable input with identical flags but different resource-id
counters give results with pairwise identical locations and checksums,
and equal lengths, while resource identities may differ. -/
theorem C7_content_deterministic :
    ∀ (img : FileImage) (location : String) (verify verifyChecksum : Bool)
      (r₁ r₂ : Nat),
      (openAnyAt r₁ img location verify verifyChecksum).map
          (fun hs => hs.map (fun p => (p.1.location, p.1.checksum))) =
        (openAnyAt r₂ img location verify verifyChecksum).map
          (fun hs => hs.map (fun p => (p.1.location, p.1.checksum))) ∧
      (∀ hs₁ hs₂, openAnyAt r₁ img location verify verifyChecksum = .ok hs₁ →
        openAnyAt r₂ img location verify verifyChecksum = .ok hs₂ →
        hs₁.length = hs₂.length) := by
  intro img location verify verifyChecksum r₁ r₂
  constructor
  · unfold openAnyAt
    cases openAnyImage img location verify verifyChecksum with
    | error e => rfl
    | ok hs => simp [Except.map, List.map_map, Function.comp]
  · intro hs₁ hs₂ h₁ h₂
    unfold openAnyAt at h₁ h₂
    cases hop : openAnyImage img location verify verifyChecksum with
    | error e =>
      rw [hop] at h₁
      simp [Except.map] at h₁
    | ok hs =>
      rw [hop] at h₁ h₂
      simp only [Except.map, Except.ok.injEq] at h₁ h₂
      rw [← h₁, ← h₂]
      simp

/-- C7 witness: the two calls on the sample raw dex with counters 0 and
5 return collections of equal length. -/
theorem C7_content_deterministic_witness :
    ([({ location := "loc", checksum := 9, verified := true }, 0)] :
      List (DexFileHandle × Nat)).length =
      ([({ location := "loc", checksum := 9, verified := true }, 5)] :
        List (DexFileHandle × Nat)).length :=
  (C7_content_deterministic (.dexImage sampleDex) "loc" true true 0 5).2 _ _ rfl rfl

/-- C8: the combined Open dispatches on the fd sentinel: fd = -1 opens
via the named file, any other fd reads from the descriptor and the file
content behind the filename is never used as data source;
GetMultiDexChecksums follows the same sentinel rule for zip_fd. -/
theorem C8_fd_sentinel :
    ∀ (filename : String) (fc fdc : Option FileImage) (fd : Int)
      (location : String) (verify verifyChecksum : Bool),
      (fd = -1 →
        Open filename fc fd fdc location verify verifyChecksum =
          openAnyOpt fc location verify verifyChecksum ∧
        GetMultiDexChecksums filename fc fdc fd =
          getMultiDexChecksumsOpt fc filename) ∧
      (fd ≠ -1 →
        Open filename fc fd fdc location verify verifyChecksum =
          openAnyOpt fdc location verify verifyChecksum ∧
        GetMultiDexChecksums filename fc fdc fd =
          getMultiDexChecksumsOpt fdc filename ∧
        (∀ fc', Open filename fc' fd fdc location verify verifyChecksum =
          Open filename fc fd fdc location verify verifyChecksum) ∧
        (∀ fc', GetMultiDexChecksums filename fc' fdc fd =
          GetMultiDexChecksums filename fc fdc fd)) := by
  intro filename fc fdc fd location verify verifyChecksum
  constructor
  · intro h
    constructor <;> simp [Open, GetMultiDexChecksums, h]
  · intro h
    refine ⟨?_, ?_, ?_, ?_⟩ <;> simp [Open, GetMultiDexChecksums, h]

/-- C8 witness: with fd = -1 the named file (the sample raw dex) is the
data source; with fd = 0 the descriptor (here unreadable) is, even
though the named file holds a dex image. -/
theorem C8_fd_sentinel_witness :
    Open "f" (some (.dexImage sampleDex)) (-1) none "loc" true true =
      openAnyOpt (some (.dexImage sampleDex)) "loc" true true ∧
    Open "f" (some (.dexImage sampleDex)) 0 none "loc" true true =
      openAnyOpt none "loc" true true :=
  ⟨((C8_fd_sentinel "f" (some (.dexImage sampleDex)) none (-1) "loc" true true).1
      rfl).1,
   ((C8_fd_sentinel "f" (some (.dexImage sampleDex)) none 0 "loc" true true).2
      (by decide)).1⟩

/-- C9: whenever GetMultiDexChecksums succeeds, the checksums vector
and the locations vector have equal length and are index-aligned:
zipping them recovers exactly the discovered units of the image the
sentinel selected. -/
theorem C9_vectors_aligned :
    ∀ (filename : String) (fc fdc : Option FileImage) (fd : Int)
      (m : MultiDexChecksums),
      GetMultiDexChecksums filename fc fdc fd = .ok m →
      m.checksums.length = m.dexLocations.length ∧
      m.dexLocations.zip m.checksums =
        multiDexUnitsOpt (selectedImage fc fdc fd) filename := by
  intro filename fc fdc fd m hm
  have hsel : getMultiDexChecksumsOpt (selectedImage fc fdc fd) filename = .ok m := by
    by_cases h : fd = -1 <;>
      simpa [GetMultiDexChecksums, selectedImage, h] using hm
  cases himg : selectedImage fc fdc fd with
  | none => rw [himg] at hsel; simp [getMultiDexChecksumsOpt] at hsel
  | some img =>
    rw [himg] at hsel
    cases img with
    | dexImage d =>
      simp only [getMultiDexChecksumsOpt, getMultiDexChecksumsFromImage,
        Except.ok.injEq] at hsel
      rw [← hsel]
      simp [multiDexUnitsOpt]
    | zipImage z =>
      by_cases h0 : (z.find (GetMultiDexClassesDexName 0)).isSome
      · simp only [getMultiDexChecksumsOpt, getMultiDexChecksumsFromImage, h0,
          if_true, Except.ok.injEq] at hsel
        rw [← hsel]
        refine ⟨by simp, ?_⟩
        simp only [multiDexUnitsOpt]
        rw [List.zip_map']
        simp
      · simp [getMultiDexChecksumsOpt, getMultiDexChecksumsFromImage, h0] at hsel
    | unknownImage =>
      simp [getMultiDexChecksumsOpt, getMultiDexChecksumsFromImage] at hsel

/-- C9 witness: the claim applied to the three-entry archive read
through a valid descriptor. -/
theorem C9_vectors_aligned_witness :
    tripleChecksums.checksums.length = tripleChecksums.dexLocations.length ∧
    tripleChecksums.dexLocations.zip tripleChecksums.checksums =
      multiDexUnitsOpt (selectedImage none (some (.zipImage tripleArchive)) 3)
        "loc" :=
  C9_vectors_aligned "loc" none (some (.zipImage tripleArchive)) 3
    tripleChecksums rfl

end ArtDex
